import Mathlib

/-!
Shallow embedding of the lunch-reminder Slack bot (src/main.py) and proofs
about its menu parser, menu cache, order ledger and reminder-eligibility
logic.

Modelling conventions:

* Calendar dates are proleptic-Gregorian day ordinals (`Nat`, day 1 =
  0001-01-01), the same ordinal as Python's `date.toordinal`.  Comparison
  of `datetime.date` values coincides with comparison of ordinals,
  `timedelta(days = k)` is `+ k`, and Python's `date.weekday()`
  (Monday = 0) is `weekday` below.
* The code stores dates in Firestore serialized with
  `strftime("%Y-%m-%d")` and queries them by string equality; that
  serialization is injective on dates, so the model stores the ordinal
  itself and compares ordinals.
* Firestore collections are association lists `List (key × doc)`;
  `document(id).set` is the upsert `fsSet`, and field queries
  (`.where(...)`) are list filters over the document values.
* External effects (the HTTP fetch of the vendor page, the ambient clock)
  are explicit parameters of the functions that perform them.
-/

namespace LunchBot

/-- Gregorian leap-year rule, as used by Python's `datetime`. -/
def isLeap (y : Nat) : Bool :=
  y % 4 == 0 && (y % 100 != 0 || y % 400 == 0)

/-- Length of month `m` of year `y` (Gregorian calendar). -/
def daysInMonth (y m : Nat) : Nat :=
  if m == 2 then (if isLeap y then 29 else 28)
  else if m == 4 || m == 6 || m == 9 || m == 11 then 30
  else 31

/-- Proleptic-Gregorian day ordinal of `y-m-d`, with
`toOrdinal 1 1 1 = 1`, agreeing with Python's `date.toordinal`. -/
def toOrdinal (y m d : Nat) : Nat :=
  let yp := y - (if m ≤ 2 then 1 else 0)
  let era := yp / 400
  let yoe := yp % 400
  let mp := if 2 < m then m - 3 else m + 9
  let doy := (153 * mp + 2) / 5 + (d - 1)
  let doe := yoe * 365 + yoe / 4 - yoe / 100 + doy
  era * 146097 + doe - 305

/-- Python's `date.weekday()` on ordinals: Monday = 0 … Sunday = 6. -/
def weekday (d : Nat) : Nat := (d + 6) % 7

/-- Value of a list of decimal digit characters (what Python's `int`
does to a run of digits). -/
def digitsToNat (cs : List Char) : Nat :=
  cs.foldl (fun a c => 10 * a + (c.toNat - 48)) 0

/-- Parse of `datetime.strptime(s, "%Y-%m-%d").date()`: a 4-digit year,
1–2 digit month and 1–2 digit day separated by `-`, the whole string
consumed, with calendar validation (month 1–12, day within the month,
year ≥ 1).  Returns the day ordinal, or `none` where Python raises
`ValueError`. -/
def parseYMD (s : String) : Option Nat :=
  let cs := s.data
  let ys := cs.takeWhile (fun c => c.isDigit)
  match cs.drop ys.length with
  | '-' :: r2 =>
    let ms := r2.takeWhile (fun c => c.isDigit)
    match r2.drop ms.length with
    | '-' :: r4 =>
      let ds := r4.takeWhile (fun c => c.isDigit)
      if r4.drop ds.length = [] ∧ ys.length = 4 ∧
          1 ≤ ms.length ∧ ms.length ≤ 2 ∧ 1 ≤ ds.length ∧ ds.length ≤ 2 then
        let y := digitsToNat ys
        let m := digitsToNat ms
        let d := digitsToNat ds
        if 1 ≤ y ∧ 1 ≤ m ∧ m ≤ 12 ∧ 1 ≤ d ∧ d ≤ daysInMonth y m then
          some (toOrdinal y m d)
        else none
      else none
    | _ => none
  | _ => none

/-- A Firestore field value as seen from Python (the document store is
schemaless, so a field can hold null, a string, a number or a boolean). -/
inductive DocVal where
  | null : DocVal
  | str : String → DocVal
  | num : Int → DocVal
  | boolean : Bool → DocVal
deriving DecidableEq

/-- Python truthiness of a field value (`if not snoozed_until_str`). -/
def truthy : DocVal → Bool
  | .null => false
  | .str s => decide (s ≠ "")
  | .num n => decide (n ≠ 0)
  | .boolean b => b

/-- Embedding of `is_user_snoozed` (src/main.py lines 234–238): the
`snoozed_until` field is read with `.get` (missing ⇒ `None`); a falsy
value returns `False`; otherwise `strptime(..., "%Y-%m-%d")` is tried
and both `ValueError` (malformed string) and `TypeError` (non-string)
yield `False`; a parsed date is compared with `>= check_date`. -/
def is_user_snoozed (snoozed_until : Option DocVal) (check_date : Nat) : Bool :=
  match snoozed_until with
  | none => false
  | some v =>
    if truthy v then
      match v with
      | .str s =>
        match parseYMD s with
        | some d => decide (check_date ≤ d)
        | none => false
      | _ => false
    else false

/-- A record of the Firestore `orders` collection, as written by
`save_user_order` (src/main.py lines 123–136).  `order_for_date` and
`placed_on_date` are stored by the code as `"%Y-%m-%d"` strings; the
serialization is injective, so the model keeps the day ordinal. -/
structure Order where
  ordered_by_user_id : String
  meal_description : String
  ordered_for_user_id : String
  order_for_date : Nat
  placed_on_date : Nat
  price : Nat
  rating : Option Nat
  rated_at : Option Nat
deriving DecidableEq

/-- A record of the `users` collection (the subscriber list). -/
structure UserData where
  snoozed_until : Option DocVal
  google_email : Option String
deriving DecidableEq

/-- A `user_settings` record after `get_user_settings` has applied its
`setdefault`s, so both fields are present. -/
structure Settings where
  notification_frequency : String
  is_test_user : Bool
deriving DecidableEq

/-- A raw `user_settings` document, possibly missing fields. -/
structure StoredSettings where
  notification_frequency : Option String
  is_test_user : Option Bool
deriving DecidableEq

/-- Embedding of `get_user_settings` (lines 100–108): a missing document
yields the defaults `('daily', False)`, and `setdefault` fills either
missing field. -/
def get_user_settings (doc : Option StoredSettings) : Settings :=
  match doc with
  | none => { notification_frequency := "daily", is_test_user := false }
  | some s =>
    { notification_frequency := s.notification_frequency.getD "daily"
      is_test_user := s.is_test_user.getD false }

/-- Firestore `document(k).set(v)`: create the document or overwrite the
existing one with the same id (document ids are unique in a collection,
modelled by replacing the first occurrence in the association list). -/
def fsSet [DecidableEq κ] (k : κ) (v : α) : List (κ × α) → List (κ × α)
  | [] => [(k, v)]
  | p :: rest => if p.1 = k then (k, v) :: rest else p :: fsSet k v rest

/-- Firestore `document(k).get()`. -/
def fsGet [DecidableEq κ] : List (κ × α) → κ → Option α
  | [], _ => none
  | p :: rest, k => if p.1 = k then some p.2 else fsGet rest k

/-- Firestore `users.document(uid).set({'snoozed_until': v}, merge=True)`:
update just that field of an existing document, or create a document
holding only that field. -/
def setSnoozedUntil (uid : String) (v : Option DocVal) :
    List (String × UserData) → List (String × UserData)
  | [] => [(uid, { snoozed_until := v, google_email := none })]
  | p :: rest =>
    if p.1 = uid then (p.1, { p.2 with snoozed_until := v }) :: rest
    else p :: setSnoozedUntil uid v rest

/-- The document id `f"{ordered_by_id}_{ordered_for_id}_{date}"` used by
`save_user_order` (line 134), with the date serialized injectively. -/
def orderDocId (ordered_by_id ordered_for_id : String) (order_for_date : Nat) : String :=
  ordered_by_id ++ "_" ++ ordered_for_id ++ "_" ++ toString order_for_date

/-- The document id an order's own fields determine. -/
def keyOf (o : Order) : String :=
  orderDocId o.ordered_by_user_id o.ordered_for_user_id o.order_for_date

/-- Database state touched by `save_user_order`. -/
structure DB where
  orders : List (String × Order)
  users : List (String × UserData)
deriving DecidableEq

/-- Embedding of `save_user_order` (lines 123–136): build the order
record (price 125, no rating), upsert it at the composite document id,
and clear the orderer's `snoozed_until` (set it to `None`, merge).
`today` is the ambient `date.today()` passed explicitly. -/
def save_user_order (today : Nat) (db : DB) (ordered_by_id meal_choice : String)
    (order_for_date : Nat) (ordered_for_id : String) : DB :=
  let order_data : Order :=
    { ordered_by_user_id := ordered_by_id
      meal_description := meal_choice
      ordered_for_user_id := ordered_for_id
      order_for_date := order_for_date
      placed_on_date := today
      price := 125
      rating := none
      rated_at := none }
  { orders := fsSet (orderDocId ordered_by_id ordered_for_id order_for_date) order_data db.orders
    users := setSnoozedUntil ordered_by_id (some DocVal.null) db.users }

/-- Embedding of `check_if_user_ordered_for_date` (lines 138–140): the
query `orders.where('order_for_date', ==, date).where('ordered_by_user_id',
==, user)` streamed, with `len(...) > 0`.  It matches by orderer across
all beneficiaries. -/
def check_if_user_ordered_for_date (orders : List (String × Order))
    (user_id : String) (target_date : Nat) : Bool :=
  decide (0 < (orders.filter (fun p =>
    p.2.order_for_date == target_date && p.2.ordered_by_user_id == user_id)).length)

/-- Number of ledger entries with a given `(ordered_by, ordered_for,
order_for_date)` identity triple. -/
def countTriple (orders : List (String × Order)) (a b : String) (d : Nat) : Nat :=
  (orders.filter (fun p =>
    p.2.ordered_by_user_id == a && p.2.ordered_for_user_id == b &&
    p.2.order_for_date == d)).length

/-- Well-formedness of the `orders` collection: every document sits at
the id its own fields determine (which is how `save_user_order` always
writes it), and document ids are unique (guaranteed by Firestore). -/
def ordersWF (c : List (String × Order)) : Prop :=
  (∀ p ∈ c, p.1 = keyOf p.2) ∧ (c.map Prod.fst).Nodup

/-- One dish entry of the menu list built by `get_daily_menu`
(`{'name': ..., 'image_url': ...}`). -/
structure MenuItem where
  name : String
  image_url : Option String
deriving DecidableEq

/-- Result of `get_daily_menu`: the Python function returns either the
list of menu items or a plain Czech string (all failure paths return
strings; callers test `isinstance(result, str)`). -/
inductive MenuResult where
  | items : List MenuItem → MenuResult
  | err : String → MenuResult
deriving DecidableEq

/-- Outcome of the HTTP fetch and HTML parse of the vendor page, for one
target date: the network/HTTP layer failed, or a parsed page on which the
date heading and the sibling menu table were looked up, with the menu
table's rows given as their `<td>` cell texts (`get_text(strip=True)`). -/
inductive FetchOutcome where
  | networkFail : FetchOutcome
  | page : Bool → Bool → List (List String) → FetchOutcome
deriving DecidableEq

/-- Value of `re.search(r'\d+', s)` followed by `int(match.group(0))`:
the first maximal contiguous run of digits, as a number; `none` when the
text contains no digit. -/
def firstDigitRun : List Char → Option Nat
  | [] => none
  | c :: rest =>
    if c.isDigit then some (digitsToNat (c :: rest.takeWhile (fun x => x.isDigit)))
    else firstDigitRun rest

/-- The per-row test and extraction of the comprehension on line 260:
keep a row iff it has exactly 4 `<td>` cells and the first digit run of
the 4th cell equals the target price; the dish name is the 3rd cell. -/
def rowDish (targetPrice : Nat) (row : List String) : Option String :=
  if row.length = 4 then
    match firstDigitRun (row.getD 3 "").data with
    | some n => if n = targetPrice then some (row.getD 2 "") else none
    | none => none
  else none

/-- Error string of the `except` branch of `get_daily_menu` (network or
any other exception). -/
def menuFetchErrMsg : String := "Došlo k závažné chybě při stahování menu."

/-- Error string when no `h2` heading contains the target date
(`dateShort` is `target_date.strftime('%d.%m.')`). -/
def notPublishedMsg (dateShort : String) : String :=
  "Menu na " ++ dateShort ++ " ještě není k dispozici. 🙁"

/-- Error string when the heading has no sibling menu table. -/
def tableMissingMsg : String := "Chyba: Tabulka s menu nebyla nalezena."

/-- String returned when zero dishes remain after the price filter. -/
def noDishMsg (dateShort : String) (targetPrice : Nat) : String :=
  "Na " ++ dateShort ++ " bohužel není v nabídce žádné jídlo za " ++
    toString targetPrice ++ " Kč."

/-- Embedding of `get_daily_menu` (lines 247–284) with `ENABLE_IMAGES`
at its default `false` (so `image_url` is `None` for every dish).
`dateShort` is the `%d.%m.`-formatted target date interpolated into the
messages; the fetch/parse outcome is the explicit `outcome` argument. -/
def get_daily_menu (dateShort : String) (targetPrice : Nat)
    (outcome : FetchOutcome) : MenuResult :=
  match outcome with
  | .networkFail => .err menuFetchErrMsg
  | .page hasHeader hasTable rows =>
    if !hasHeader then .err (notPublishedMsg dateShort)
    else if !hasTable then .err tableMissingMsg
    else
      let dish_names := rows.filterMap (rowDish targetPrice)
      if dish_names = [] then .err (noDishMsg dateShort targetPrice)
      else .items (dish_names.map (fun n => { name := n, image_url := none }))

/-- The `daily_menus` collection, keyed by (serialized) menu date. -/
abbrev Cache := List (Nat × List MenuItem)

/-- Embedding of `save_daily_menu` (lines 240–241). -/
def save_daily_menu (cache : Cache) (menu_date : Nat) (menu_items : List MenuItem) : Cache :=
  fsSet menu_date menu_items cache

/-- Embedding of `get_saved_menu_for_date` (lines 243–245): the stored
`menu_items` when the document exists, else `None`. -/
def get_saved_menu_for_date (cache : Cache) (target_date : Nat) : Option (List MenuItem) :=
  fsGet cache target_date

/-- The menu lookup of the interactive order-modal path (line 1114):
`get_saved_menu_for_date(order_for) or get_daily_menu(order_for)`.
Python's `or` falls through on any falsy value, so both a missing cache
document and a cached empty list trigger the fetch; the fetched result is
not written back (the returned cache is unchanged). -/
def interactive_modal_menu (cache : Cache) (order_for : Nat) (dateShort : String)
    (targetPrice : Nat) (outcome : FetchOutcome) : MenuResult × Cache :=
  match get_saved_menu_for_date cache order_for with
  | some l =>
    if l = [] then (get_daily_menu dateShort targetPrice outcome, cache)
    else (.items l, cache)
  | none => (get_daily_menu dateShort targetPrice outcome, cache)

/-- The fixed-offset local clock of line 834:
`(datetime.utcnow().hour + 2) % 24`. -/
def pragueHour (utcHour : Nat) : Nat := (utcHour + 2) % 24

/-- The next-order-date expression
`today + timedelta(days=3) if today.weekday() == 4 else today + timedelta(days=1)`,
which appears verbatim both in `trigger_daily_reminder` (line 839) and in
`slack_interactive_endpoint` (line 992). -/
def nextOrderDate (today : Nat) : Nat :=
  if weekday today = 4 then today + 3 else today + 1

/-- The per-user send decision of the loop body of
`trigger_daily_reminder` (lines 866–895): skip if already ordered, skip
if snoozed, always send for test users, otherwise send iff the current
Prague hour is in the 9–17 window and the frequency rule fires (`'2'` ⇒
every 2 hours from 9, `'4'` ⇒ every 4 hours from 9, `'daily'` ⇒ the
11–13 sub-window). -/
def userReminderDecision (orders : List (String × Order)) (user_id : String)
    (user_data : UserData) (settings : Settings) (next_day : Nat)
    (current_hour_prague : Nat) : Bool :=
  if check_if_user_ordered_for_date orders user_id next_day then false
  else if is_user_snoozed user_data.snoozed_until next_day then false
  else if settings.is_test_user then true
  else if 9 ≤ current_hour_prague ∧ current_hour_prague < 17 then
    if settings.notification_frequency = "2" ∧ (current_hour_prague - 9) % 2 = 0 then true
    else if settings.notification_frequency = "4" ∧ (current_hour_prague - 9) % 4 = 0 then true
    else if settings.notification_frequency = "daily" ∧
        11 ≤ current_hour_prague ∧ current_hour_prague < 13 then true
    else false
  else false

/-- Outcome of one run of `trigger_daily_reminder`: the early no-op
returns (not a reminder day; holiday), a menu failure (the string is
returned with HTTP 500), the no-users return, or a completed run with the
updated `daily_menus` cache and the ids of the users reminded. -/
inductive JobResult where
  | notReminderDay : JobResult
  | holidayStop : Nat → JobResult
  | menuFail : String → JobResult
  | noUsers : Nat → Cache → JobResult
  | ran : Nat → Cache → List String → JobResult
deriving DecidableEq

/-- HTTP status of each outcome: only the menu failure maps to 500
(line 852); every other return is 200. -/
def jobStatus : JobResult → Nat
  | .menuFail _ => 500
  | _ => 200

/-- Embedding of `trigger_daily_reminder` (lines 831–905).  `fetched` is
the result of the `get_daily_menu(next_day)` call — in this revision the
cache-first read (line 849) is commented out, so the cache is never
consulted before fetching; a successful fetch is written to the cache
(`save_daily_menu`, line 853) before the user loop. -/
def trigger_daily_reminder (today utcHour : Nat) (holidays : List Nat)
    (cache : Cache) (orders : List (String × Order))
    (users : List (String × UserData × Settings)) (fetched : MenuResult) : JobResult :=
  let current_hour_prague := pragueHour utcHour
  if !([0, 1, 2, 3, 6].contains (weekday today)) then .notReminderDay
  else
    let next_day := nextOrderDate today
    if holidays.contains next_day then .holidayStop next_day
    else
      match fetched with
      | .err msg => .menuFail msg
      | .items menu_items =>
        let cache' := save_daily_menu cache next_day menu_items
        if users.isEmpty then .noUsers next_day cache'
        else .ran next_day cache'
          ((users.filter (fun u =>
            userReminderDecision orders u.1 u.2.1 u.2.2 next_day current_hour_prague)).map
            (fun u => u.1))

/-! ### Association-list (Firestore collection) lemmas -/

theorem fsGet_fsSet_self [DecidableEq κ] (k : κ) (v : α) (c : List (κ × α)) :
    fsGet (fsSet k v c) k = some v := by
  induction c with
  | nil => simp [fsSet, fsGet]
  | cons p rest ih =>
    by_cases h : p.1 = k
    · simp [fsSet, fsGet, h]
    · simp [fsSet, fsGet, h, ih]

theorem fsGet_fsSet_ne [DecidableEq κ] (k k' : κ) (v : α) (c : List (κ × α))
    (h : k' ≠ k) : fsGet (fsSet k' v c) k = fsGet c k := by
  induction c with
  | nil => simp [fsSet, fsGet, h]
  | cons p rest ih =>
    by_cases hp : p.1 = k'
    · have hpk : ¬ p.1 = k := by rw [hp]; exact h
      simp [fsSet, fsGet, hp, h, hpk]
    · by_cases hk : p.1 = k
      · simp only [fsSet, if_neg hp]
        simp [fsGet, hk]
      · simp only [fsSet, if_neg hp]
        simp [fsGet, hk, ih]

theorem mem_fsSet_self [DecidableEq κ] (k : κ) (v : α) (c : List (κ × α)) :
    (k, v) ∈ fsSet k v c := by
  induction c with
  | nil => simp [fsSet]
  | cons p rest ih =>
    by_cases h : p.1 = k
    · simp [fsSet, h]
    · simp only [fsSet, if_neg h]
      exact List.mem_cons_of_mem _ ih

theorem mem_fsSet [DecidableEq κ] {k : κ} {v : α} {c : List (κ × α)} {p : κ × α}
    (hp : p ∈ fsSet k v c) : p = (k, v) ∨ p ∈ c := by
  induction c with
  | nil => simpa [fsSet] using hp
  | cons q rest ih =>
    by_cases h : q.1 = k
    · rw [fsSet, if_pos h] at hp
      rcases List.mem_cons.mp hp with h1 | h1
      · exact Or.inl h1
      · exact Or.inr (List.mem_cons_of_mem _ h1)
    · rw [fsSet, if_neg h] at hp
      rcases List.mem_cons.mp hp with h1 | h1
      · exact Or.inr (h1 ▸ List.mem_cons_self _ _)
      · rcases ih h1 with h2 | h2
        · exact Or.inl h2
        · exact Or.inr (List.mem_cons_of_mem _ h2)

theorem keys_fsSet_subset [DecidableEq κ] {k : κ} {v : α} {c : List (κ × α)} {x : κ}
    (hx : x ∈ (fsSet k v c).map Prod.fst) : x = k ∨ x ∈ c.map Prod.fst := by
  rcases List.mem_map.mp hx with ⟨p, hp, hpx⟩
  rcases mem_fsSet hp with h | h
  · left; rw [← hpx, h]
  · right; exact hpx ▸ List.mem_map_of_mem Prod.fst h

theorem nodup_keys_fsSet [DecidableEq κ] (k : κ) (v : α) {c : List (κ × α)}
    (h : (c.map Prod.fst).Nodup) : ((fsSet k v c).map Prod.fst).Nodup := by
  induction c with
  | nil => simp [fsSet]
  | cons p rest ih =>
    rw [List.map_cons, List.nodup_cons] at h
    by_cases hp : p.1 = k
    · rw [fsSet, if_pos hp]
      rw [List.map_cons, List.nodup_cons]
      exact ⟨hp ▸ h.1, h.2⟩
    · rw [fsSet, if_neg hp]
      rw [List.map_cons, List.nodup_cons]
      refine ⟨?_, ih h.2⟩
      intro hmem
      rcases keys_fsSet_subset hmem with h1 | h1
      · exact hp h1
      · exact h.1 h1

theorem mem_keys_fsSet_self [DecidableEq κ] (k : κ) (v : α) (c : List (κ × α)) :
    k ∈ (fsSet k v c).map Prod.fst :=
  List.mem_map.mpr ⟨(k, v), mem_fsSet_self k v c, rfl⟩

theorem length_fsSet_of_mem [DecidableEq κ] (k : κ) (v : α) {c : List (κ × α)}
    (h : k ∈ c.map Prod.fst) : (fsSet k v c).length = c.length := by
  induction c with
  | nil => simp at h
  | cons p rest ih =>
    by_cases hp : p.1 = k
    · rw [fsSet, if_pos hp]; simp
    · rw [fsSet, if_neg hp]
      rw [List.map_cons, List.mem_cons] at h
      rcases h with h | h
      · exact absurd h.symm hp
      · simp [ih h]

theorem fsSet_unique_key [DecidableEq κ] {k : κ} {v : α} {c : List (κ × α)}
    (hnd : (c.map Prod.fst).Nodup) :
    ∀ p ∈ fsSet k v c, p.1 = k → p = (k, v) := by
  induction c with
  | nil =>
    intro p hp _
    simpa [fsSet] using hp
  | cons q rest ih =>
    rw [List.map_cons, List.nodup_cons] at hnd
    intro p hp hpk
    by_cases hq : q.1 = k
    · rw [fsSet, if_pos hq] at hp
      rcases List.mem_cons.mp hp with h1 | h1
      · exact h1
      · exfalso
        apply hnd.1
        rw [hq, ← hpk]
        exact List.mem_map_of_mem Prod.fst h1
    · rw [fsSet, if_neg hq] at hp
      rcases List.mem_cons.mp hp with h1 | h1
      · exact absurd (h1 ▸ hpk : q.1 = k) hq
      · exact ih hnd.2 p h1 hpk

theorem fsGet_setSnoozedUntil_self (uid : String) (v : Option DocVal)
    (users : List (String × UserData)) :
    ∃ u, fsGet (setSnoozedUntil uid v users) uid = some u ∧ u.snoozed_until = v := by
  induction users with
  | nil =>
    exact ⟨{ snoozed_until := v, google_email := none },
      by simp [setSnoozedUntil, fsGet], rfl⟩
  | cons p rest ih =>
    by_cases h : p.1 = uid
    · exact ⟨{ p.2 with snoozed_until := v },
        by simp [setSnoozedUntil, fsGet, h], rfl⟩
    · rcases ih with ⟨u, hu, hv⟩
      exact ⟨u, by simp [setSnoozedUntil, fsGet, h, hu], hv⟩

theorem length_le_one_of_forall_eq {l : List β} (hnd : l.Nodup)
    (h : ∀ x ∈ l, x = a) : l.length ≤ 1 := by
  match l with
  | [] => simp
  | [x] => simp
  | x :: y :: rest =>
    exfalso
    rw [List.nodup_cons] at hnd
    apply hnd.1
    rw [h x (List.mem_cons_self _ _)]
    rw [← h y (List.mem_cons_of_mem _ (List.mem_cons_self _ _))]
    exact List.mem_cons_self _ _

theorem countTriple_le_one {c : List (String × Order)} (h : ordersWF c)
    (a b : String) (d : Nat) : countTriple c a b d ≤ 1 := by
  unfold countTriple
  rw [← List.length_map _ Prod.fst]
  apply length_le_one_of_forall_eq (a := orderDocId a b d)
  · exact h.2.sublist ((List.filter_sublist _).map Prod.fst)
  · intro x hx
    rcases List.mem_map.mp hx with ⟨p, hp, hpx⟩
    rw [List.mem_filter] at hp
    have hfields := hp.2
    simp only [Bool.and_eq_true, beq_iff_eq] at hfields
    have hkey := h.1 p hp.1
    rw [← hpx, hkey]
    unfold keyOf
    rw [hfields.1.1, hfields.1.2, hfields.2]

theorem ordersWF_fsSet {c : List (String × Order)} (o : Order) (h : ordersWF c) :
    ordersWF (fsSet (keyOf o) o c) := by
  constructor
  · intro p hp
    rcases mem_fsSet hp with h1 | h1
    · rw [h1]
    · exact h.1 p h1
  · exact nodup_keys_fsSet _ _ h.2

theorem ordersWF_save_user_order (today : Nat) (db : DB) (a m : String) (d : Nat)
    (b : String) (h : ordersWF db.orders) :
    ordersWF (save_user_order today db a m d b).orders :=
  ordersWF_fsSet
    (o := { ordered_by_user_id := a, meal_description := m, ordered_for_user_id := b,
            order_for_date := d, placed_on_date := today, price := 125,
            rating := none, rated_at := none }) h

theorem one_le_countTriple_of_mem {c : List (String × Order)} {k : String} {o : Order}
    {a b : String} {d : Nat} (hm : (k, o) ∈ c) (ha : o.ordered_by_user_id = a)
    (hb : o.ordered_for_user_id = b) (hd : o.order_for_date = d) :
    1 ≤ countTriple c a b d := by
  unfold countTriple
  exact List.length_pos.mpr
    (List.ne_nil_of_mem (List.mem_filter.mpr ⟨hm, by simp [ha, hb, hd]⟩))

/-! ### Claim theorems -/

/-- Claim C9: for every date and dish list, `put(date, dishes)` followed
by `get(date)`, with no other write to that date in between (writes to
other dates are allowed), returns exactly the stored dishes — the same
sequence in the same order with the same contents
(`save_daily_menu` / `get_saved_menu_for_date`, src/main.py
lines 240–245). -/
theorem C9_menu_cache_roundtrip (cache : Cache) (d : Nat) (items : List MenuItem)
    (writes : List (Nat × List MenuItem)) (hw : ∀ w ∈ writes, w.1 ≠ d) :
    get_saved_menu_for_date
      (writes.foldl (fun c w => save_daily_menu c w.1 w.2) (save_daily_menu cache d items)) d
      = some items := by
  have key : ∀ (ws : List (Nat × List MenuItem)) (c : Cache),
      (∀ w ∈ ws, w.1 ≠ d) → get_saved_menu_for_date c d = some items →
      get_saved_menu_for_date (ws.foldl (fun c w => save_daily_menu c w.1 w.2) c) d
        = some items := by
    intro ws
    induction ws with
    | nil => intro c _ h; simpa using h
    | cons w rest ih =>
      intro c hws h
      rw [List.foldl_cons]
      apply ih
      · intro x hx; exact hws x (List.mem_cons_of_mem _ hx)
      · unfold get_saved_menu_for_date save_daily_menu
        rw [fsGet_fsSet_ne _ _ _ _ (hws w (List.mem_cons_self _ _))]
        exact h
  apply key writes _ hw
  unfold get_saved_menu_for_date save_daily_menu
  exact fsGet_fsSet_self _ _ _

/-- Witness for C9 at a concrete cache state: a write to the unrelated
date 6 between the put and the get does not disturb the round trip. -/
theorem C9_menu_cache_roundtrip_witness :
    (∀ w ∈ [((6 : Nat), ([] : List MenuItem))], w.1 ≠ 5)
    ∧ get_saved_menu_for_date
        ([((6 : Nat), ([] : List MenuItem))].foldl
          (fun c w => save_daily_menu c w.1 w.2)
          (save_daily_menu [] 5 [{ name := "Svíčková", image_url := none }])) 5
        = some [{ name := "Svíčková", image_url := none }] :=
  ⟨by decide, C9_menu_cache_roundtrip [] 5 [{ name := "Svíčková", image_url := none }]
    [((6 : Nat), ([] : List MenuItem))] (by decide)⟩

/-- Claim C10: the snooze check is total and never raises: a missing
field, a stored null, an empty string, a string that does not parse as a
`YYYY-MM-DD` date, and non-string values all make `is_user_snoozed`
return `false` (the `if not ...` guard and the
`except (ValueError, TypeError)` handler of src/main.py lines 234–238),
so a malformed snooze value never blocks a user's reminders. -/
theorem C10_snooze_check_total (check : Nat) :
    is_user_snoozed none check = false
    ∧ is_user_snoozed (some DocVal.null) check = false
    ∧ is_user_snoozed (some (DocVal.str "")) check = false
    ∧ (∀ s, parseYMD s = none → is_user_snoozed (some (DocVal.str s)) check = false)
    ∧ (∀ n, is_user_snoozed (some (DocVal.num n)) check = false)
    ∧ (∀ b, is_user_snoozed (some (DocVal.boolean b)) check = false) := by
  refine ⟨rfl, rfl, rfl, ?_, ?_, ?_⟩
  · intro s hs
    simp [is_user_snoozed, hs]
  · intro n
    simp [is_user_snoozed]
  · intro b
    simp [is_user_snoozed]

/-- Witness for C10: the unparseable string "2024-13-01" (month 13) is
treated as not snoozed. -/
theorem C10_snooze_check_total_witness :
    parseYMD "2024-13-01" = none
    ∧ is_user_snoozed (some (DocVal.str "2024-13-01")) 0 = false :=
  ⟨by decide, (C10_snooze_check_total 0).2.2.2.1 "2024-13-01" (by decide)⟩

/-- Claim C7: `save_user_order` upserts by the identity key
`(ordered_by, ordered_for, order_for_date)`: calling it twice with an
identical triple and different dishes leaves exactly one ledger entry
for the triple, the second call adds no document, every entry matching
the triple holds the second dish, at most one order exists per triple,
and the orderer's `snoozed_until` is cleared (set to null, so the
snooze check is false for every date). -/
theorem C7_place_order_upsert (today : Nat) (db : DB) (a b dish1 dish2 : String)
    (d : Nat) (hwf : ordersWF db.orders) :
    countTriple (save_user_order today (save_user_order today db a dish1 d b) a dish2 d b).orders a b d = 1
    ∧ (save_user_order today (save_user_order today db a dish1 d b) a dish2 d b).orders.length
      = (save_user_order today db a dish1 d b).orders.length
    ∧ (∀ p ∈ (save_user_order today (save_user_order today db a dish1 d b) a dish2 d b).orders,
        p.2.ordered_by_user_id = a → p.2.ordered_for_user_id = b →
        p.2.order_for_date = d → p.2.meal_description = dish2)
    ∧ (∀ x y z,
        countTriple (save_user_order today (save_user_order today db a dish1 d b) a dish2 d b).orders x y z ≤ 1)
    ∧ (∃ u, fsGet (save_user_order today (save_user_order today db a dish1 d b) a dish2 d b).users a = some u
        ∧ u.snoozed_until = some DocVal.null
        ∧ ∀ c, is_user_snoozed u.snoozed_until c = false) := by
  have h1 : ordersWF (save_user_order today db a dish1 d b).orders :=
    ordersWF_save_user_order today db a dish1 d b hwf
  have h2 : ordersWF (save_user_order today (save_user_order today db a dish1 d b) a dish2 d b).orders :=
    ordersWF_save_user_order today _ a dish2 d b h1
  refine ⟨?_, ?_, ?_, ?_, ?_⟩
  · apply le_antisymm (countTriple_le_one h2 a b d)
    exact one_le_countTriple_of_mem
      (mem_fsSet_self (orderDocId a b d)
        { ordered_by_user_id := a, meal_description := dish2, ordered_for_user_id := b,
          order_for_date := d, placed_on_date := today, price := 125,
          rating := none, rated_at := none }
        (save_user_order today db a dish1 d b).orders) rfl rfl rfl
  · exact length_fsSet_of_mem _ _ (mem_keys_fsSet_self _ _ _)
  · intro p hp hpa hpb hpd
    have hkey : p.1 = orderDocId a b d := by
      have hk := h2.1 p hp
      rw [hk]
      unfold keyOf
      rw [hpa, hpb, hpd]
    have hpe := fsSet_unique_key h1.2 p hp hkey
    rw [hpe]
  · intro x y z
    exact countTriple_le_one h2 x y z
  · rcases fsGet_setSnoozedUntil_self a (some DocVal.null)
      (setSnoozedUntil a (some DocVal.null) db.users) with ⟨u, hu, hv⟩
    exact ⟨u, hu, hv, fun c => by rw [hv]; rfl⟩

/-- Witness for C7 at a concrete ledger: two orders for the same triple
starting from an empty database leave exactly one entry. -/
theorem C7_place_order_upsert_witness :
    ordersWF (DB.mk [] []).orders
    ∧ countTriple (save_user_order 5 (save_user_order 5 (DB.mk [] []) "U1" "Guláš" 9 "U2")
        "U1" "Svíčková" 9 "U2").orders "U1" "U2" 9 = 1 :=
  ⟨⟨fun p hp => absurd hp (List.not_mem_nil p), List.nodup_nil⟩,
    (C7_place_order_upsert 5 (DB.mk [] []) "U1" "U2" "Guláš" "Svíčková" 9
      ⟨fun p hp => absurd hp (List.not_mem_nil p), List.nodup_nil⟩).1⟩

/-- Claim C1: if any order exists with `ordered_by == U` and
`order_for_date == D` — for any beneficiary — then
`check_if_user_ordered_for_date(U, D)` is true and the reminder loop
skips `U` regardless of snooze state, frequency and test-user setting
(the `already_ordered` check comes first in the loop body,
src/main.py lines 866–876). -/
theorem C1_order_blocks_reminder (orders : List (String × Order)) (k : String)
    (o : Order) (uid : String) (d : Nat) (ud : UserData) (st : Settings) (hour : Nat)
    (hm : (k, o) ∈ orders) (hby : o.ordered_by_user_id = uid)
    (hfor : o.order_for_date = d) :
    check_if_user_ordered_for_date orders uid d = true
    ∧ userReminderDecision orders uid ud st d hour = false := by
  have hc : check_if_user_ordered_for_date orders uid d = true := by
    unfold check_if_user_ordered_for_date
    exact decide_eq_true
      (List.length_pos.mpr
        (List.ne_nil_of_mem (List.mem_filter.mpr ⟨hm, by simp [hby, hfor]⟩)))
  exact ⟨hc, by simp [userReminderDecision, hc]⟩

/-- Witness for C1: an order by U1 for beneficiary U2 on date 9 blocks
U1's reminder for date 9 even for a snoozed test user. -/
theorem C1_order_blocks_reminder_witness :
    (("k", Order.mk "U1" "Guláš" "U2" 9 5 125 none none) ∈
      [("k", Order.mk "U1" "Guláš" "U2" 9 5 125 none none)])
    ∧ check_if_user_ordered_for_date [("k", Order.mk "U1" "Guláš" "U2" 9 5 125 none none)] "U1" 9 = true
    ∧ userReminderDecision [("k", Order.mk "U1" "Guláš" "U2" 9 5 125 none none)] "U1"
        (UserData.mk (some (DocVal.str "2099-01-01")) none) (Settings.mk "daily" true) 9 12 = false :=
  ⟨by decide,
    (C1_order_blocks_reminder _ "k" (Order.mk "U1" "Guláš" "U2" 9 5 125 none none) "U1" 9
      (UserData.mk (some (DocVal.str "2099-01-01")) none)
      (Settings.mk "daily" true) 12 (by decide) rfl rfl).1,
    (C1_order_blocks_reminder _ "k" (Order.mk "U1" "Guláš" "U2" 9 5 125 none none) "U1" 9
      (UserData.mk (some (DocVal.str "2099-01-01")) none)
      (Settings.mk "daily" true) 12 (by decide) rfl rfl).2⟩

/-- Claim C2: a user whose `snoozed_until` parses to a date `s` is not
eligible when `s` is on or after the next order date, regardless of
order state, frequency or test-user setting; when `s` is strictly
before the next order date the snooze has no effect on the decision
(src/main.py lines 234–238 and 877–880). -/
theorem C2_snooze_blocks_iff (orders : List (String × Order)) (uid : String)
    (ud : UserData) (st : Settings) (hour next s : Nat) (ss : String)
    (hsu : ud.snoozed_until = some (DocVal.str ss)) (hp : parseYMD ss = some s) :
    (next ≤ s → userReminderDecision orders uid ud st next hour = false)
    ∧ (s < next → userReminderDecision orders uid ud st next hour
        = userReminderDecision orders uid { ud with snoozed_until := none } st next hour) := by
  have hne : ss ≠ "" := by
    intro he
    rw [he] at hp
    have h0 : parseYMD "" = none := by decide
    rw [h0] at hp
    exact Option.noConfusion hp
  have hsn : is_user_snoozed ud.snoozed_until next = decide (next ≤ s) := by
    rw [hsu]
    simp [is_user_snoozed, truthy, hne, hp]
  constructor
  · intro hle
    have hb : is_user_snoozed ud.snoozed_until next = true := by
      rw [hsn]; exact decide_eq_true hle
    simp [userReminderDecision, hb]
  · intro hlt
    have h1 : is_user_snoozed ud.snoozed_until next = false := by
      rw [hsn]; exact decide_eq_false (by omega)
    have h2 : is_user_snoozed
        ({ ud with snoozed_until := none } : UserData).snoozed_until next = false := rfl
    simp [userReminderDecision, h1, h2]

/-- Witness for C2: the spec scenario — snoozed until 2024-06-12 blocks
the reminder for 2024-06-12 and does not block it for 2024-06-13. -/
theorem C2_snooze_blocks_iff_witness :
    (UserData.mk (some (DocVal.str "2024-06-12")) none).snoozed_until
      = some (DocVal.str "2024-06-12")
    ∧ parseYMD "2024-06-12" = some (toOrdinal 2024 6 12)
    ∧ userReminderDecision [] "U1" (UserData.mk (some (DocVal.str "2024-06-12")) none)
        (Settings.mk "daily" false) (toOrdinal 2024 6 12) 12 = false
    ∧ userReminderDecision [] "U1" (UserData.mk (some (DocVal.str "2024-06-12")) none)
        (Settings.mk "daily" false) (toOrdinal 2024 6 13) 12
      = userReminderDecision [] "U1" (UserData.mk none none)
        (Settings.mk "daily" false) (toOrdinal 2024 6 13) 12 :=
  ⟨rfl, by decide,
    (C2_snooze_blocks_iff [] "U1" (UserData.mk (some (DocVal.str "2024-06-12")) none)
      (Settings.mk "daily" false) 12 (toOrdinal 2024 6 12) (toOrdinal 2024 6 12)
      "2024-06-12" rfl (by decide)).1 (by decide),
    (C2_snooze_blocks_iff [] "U1" (UserData.mk (some (DocVal.str "2024-06-12")) none)
      (Settings.mk "daily" false) 12 (toOrdinal 2024 6 13) (toOrdinal 2024 6 12)
      "2024-06-12" rfl (by decide)).2 (by decide)⟩

/-- Claim C3: invoked on Saturday (weekday 5) — and likewise on Friday —
the reminder job returns its no-op outcome without computing a next
order date; on Sunday through Thursday the computed next order date is
`today + 1`; and the shared next-order-date expression maps a Friday to
`today + 3` (lines 836–839 and 990–992). -/
theorem C3_reminder_day_gate (today utcHour : Nat) (holidays : List Nat)
    (cache : Cache) (orders : List (String × Order))
    (users : List (String × UserData × Settings)) (fetched : MenuResult) :
    (weekday today = 5 →
      trigger_daily_reminder today utcHour holidays cache orders users fetched
        = .notReminderDay)
    ∧ (weekday today = 4 →
      trigger_daily_reminder today utcHour holidays cache orders users fetched
        = .notReminderDay)
    ∧ (weekday today ∈ [6, 0, 1, 2, 3] → nextOrderDate today = today + 1)
    ∧ (weekday today = 4 → nextOrderDate today = today + 3) := by
  refine ⟨?_, ?_, ?_, ?_⟩
  · intro h5
    unfold trigger_daily_reminder
    rw [h5]
    rfl
  · intro h4
    unfold trigger_daily_reminder
    rw [h4]
    rfl
  · intro hm
    simp only [List.mem_cons, List.mem_singleton, List.not_mem_nil, or_false] at hm
    rcases hm with h | h | h | h | h <;> simp [nextOrderDate, h]
  · intro h4
    simp [nextOrderDate, h4]

/-- Witness for C3: ordinal 6 is a Saturday (no-op), ordinal 7 a Sunday
(next day is +1), ordinal 5 a Friday (+3 in the shared expression). -/
theorem C3_reminder_day_gate_witness :
    weekday 6 = 5
    ∧ trigger_daily_reminder 6 10 [] [] [] [] (.items []) = .notReminderDay
    ∧ weekday 7 ∈ [6, 0, 1, 2, 3]
    ∧ nextOrderDate 7 = 8
    ∧ weekday 5 = 4
    ∧ nextOrderDate 5 = 8 :=
  ⟨by decide,
    (C3_reminder_day_gate 6 10 [] [] [] [] (.items [])).1 (by decide),
    by decide,
    (C3_reminder_day_gate 7 10 [] [] [] [] (.items [])).2.2.1 (by decide),
    by decide,
    (C3_reminder_day_gate 5 10 [] [] [] [] (.items [])).2.2.2 (by decide)⟩

/-- Claim C8: for a non-test user who has not ordered and is not
snoozed, a reminder is sent exactly when the fixed-offset Prague hour
`(utc + 2) % 24` lies in the 09:00–17:00 working window and the
frequency rule matches: `'daily'` only in the 11:00–13:00 midday
sub-window, the every-2-hours setting (stored token `'2'`) when
`(hour - 9) % 2 = 0`, and the every-4-hours setting (token `'4'`) when
`(hour - 9) % 4 = 0` (src/main.py lines 834 and 882–895). -/
theorem C8_frequency_window (utcHour : Nat) (orders : List (String × Order))
    (uid : String) (ud : UserData) (st : Settings) (next : Nat)
    (htest : st.is_test_user = false)
    (hord : check_if_user_ordered_for_date orders uid next = false)
    (hsn : is_user_snoozed ud.snoozed_until next = false) :
    userReminderDecision orders uid ud st next (pragueHour utcHour) = true ↔
      (9 ≤ pragueHour utcHour ∧ pragueHour utcHour < 17)
      ∧ ((st.notification_frequency = "daily"
            ∧ 11 ≤ pragueHour utcHour ∧ pragueHour utcHour < 13)
         ∨ (st.notification_frequency = "2" ∧ (pragueHour utcHour - 9) % 2 = 0)
         ∨ (st.notification_frequency = "4" ∧ (pragueHour utcHour - 9) % 4 = 0)) := by
  have hd2 : ("daily" : String) ≠ "2" := by decide
  have hd4 : ("daily" : String) ≠ "4" := by decide
  have h24 : ("2" : String) ≠ "4" := by decide
  unfold userReminderDecision
  rw [hord, hsn, htest]
  simp only [Bool.false_eq_true, if_false]
  by_cases hw : 9 ≤ pragueHour utcHour ∧ pragueHour utcHour < 17
  · simp only [hw, if_true, true_and]
    by_cases hf2 : st.notification_frequency = "2"
    · by_cases hm2 : (pragueHour utcHour - 9) % 2 = 0
      · simp [hf2, hm2, hd2.symm, h24]
      · simp [hf2, hm2, hd2.symm, h24]
    · by_cases hf4 : st.notification_frequency = "4"
      · by_cases hm4 : (pragueHour utcHour - 9) % 4 = 0
        · simp [hf4, hm4, hd4.symm, h24.symm]
        · simp [hf4, hm4, hd4.symm, h24.symm]
      · by_cases hfd : st.notification_frequency = "daily"
        · by_cases hsw : 11 ≤ pragueHour utcHour ∧ pragueHour utcHour < 13
          · simp [hfd, hsw, hd2, hd4, hw]
          · simp [hfd, hsw, hd2, hd4]
        · simp [hf2, hf4, hfd]
  · simp [hw]

/-- Witness for C8: at UTC hour 9 (Prague 11) a daily-frequency user
with no order and no snooze is reminded, and the iff's right side holds. -/
theorem C8_frequency_window_witness :
    (Settings.mk "daily" false).is_test_user = false
    ∧ check_if_user_ordered_for_date [] "U1" 9 = false
    ∧ is_user_snoozed (UserData.mk none none).snoozed_until 9 = false
    ∧ (userReminderDecision [] "U1" (UserData.mk none none) (Settings.mk "daily" false) 9
        (pragueHour 9) = true ↔
      (9 ≤ pragueHour 9 ∧ pragueHour 9 < 17)
      ∧ (((Settings.mk "daily" false).notification_frequency = "daily"
            ∧ 11 ≤ pragueHour 9 ∧ pragueHour 9 < 13)
         ∨ ((Settings.mk "daily" false).notification_frequency = "2"
            ∧ (pragueHour 9 - 9) % 2 = 0)
         ∨ ((Settings.mk "daily" false).notification_frequency = "4"
            ∧ (pragueHour 9 - 9) % 4 = 0))) :=
  ⟨rfl, by decide, rfl,
    C8_frequency_window 9 [] "U1" (UserData.mk none none) (Settings.mk "daily" false) 9
      rfl (by decide) rfl⟩

/-- Claim C4: a successful menu fetch returns exactly the dish names,
in document order and without deduplication, of the 4-cell rows whose
price text's first contiguous digit run equals the target price; rows
at another price are dropped, and rows whose price text has no digits
are dropped rather than treated as price 0 (the comprehension on
src/main.py line 260), as in the spec scenario Guláš 120 / Svíčková 125
at target 125. -/
theorem C4_price_filter (dateShort : String) (p : Nat) (rows : List (List String)) :
    (∀ l, get_daily_menu dateShort p (.page true true rows) = .items l →
      l.map (fun i => i.name) = rows.filterMap (rowDish p))
    ∧ (∀ a b c pr, firstDigitRun pr.data = none → rowDish p [a, b, c, pr] = none)
    ∧ (∀ a b c pr n, firstDigitRun pr.data = some n → n ≠ p →
        rowDish p [a, b, c, pr] = none)
    ∧ (∀ a b c pr, firstDigitRun pr.data = some p → rowDish p [a, b, c, pr] = some c)
    ∧ (∀ rows2, (rows ++ rows2).filterMap (rowDish p)
        = rows.filterMap (rowDish p) ++ rows2.filterMap (rowDish p))
    ∧ get_daily_menu "12.6." 125
        (.page true true [["1", "P", "Guláš", "120 Kč"], ["2", "P", "Svíčková", "125 Kč"]])
      = .items [{ name := "Svíčková", image_url := none }] := by
  refine ⟨?_, ?_, ?_, ?_, ?_, by decide⟩
  · intro l hl
    simp only [get_daily_menu, Bool.not_true, Bool.false_eq_true, if_false] at hl
    split at hl
    · exact absurd hl (by simp)
    · rw [← (MenuResult.items.injEq _ _).mp hl]
      have hcomp : ((fun (i : MenuItem) => i.name) ∘
          fun n => ({ name := n, image_url := none } : MenuItem)) = id := rfl
      rw [List.map_map, hcomp, List.map_id]
  · intro a b c pr h
    simp [rowDish, h]
  · intro a b c pr n h hne
    simp [rowDish, h, hne]
  · intro a b c pr h
    simp [rowDish, h]
  · intro rows2
    simp [List.filterMap_append]

/-- Witness for C4: a digit-less price is dropped even at target price
0, a 120 Kč row is dropped at target 125, a 125 Kč row is kept. -/
theorem C4_price_filter_witness :
    firstDigitRun "bez ceny".data = none
    ∧ rowDish 0 ["1", "P", "X", "bez ceny"] = none
    ∧ firstDigitRun "120 Kč".data = some 120
    ∧ rowDish 125 ["1", "P", "Guláš", "120 Kč"] = none
    ∧ firstDigitRun "125 Kč".data = some 125
    ∧ rowDish 125 ["1", "P", "Svíčková", "125 Kč"] = some "Svíčková" :=
  ⟨by decide, (C4_price_filter "x" 0 []).2.1 "1" "P" "X" "bez ceny" (by decide),
    by decide, (C4_price_filter "x" 125 []).2.2.1 "1" "P" "Guláš" "120 Kč" 120
      (by decide) (by decide),
    by decide, (C4_price_filter "x" 125 []).2.2.2.1 "1" "P" "Svíčková" "125 Kč"
      (by decide)⟩

theorem strData_append (a b : String) : (a ++ b).data = a.data ++ b.data := by
  cases a; cases b; rfl

theorem string_ne_of_head_ne {a b : String} {c1 c2 : Char}
    (ha : a.data.head? = some c1) (hb : b.data.head? = some c2) (hne : c1 ≠ c2) :
    a ≠ b := by
  intro h
  rw [h] at ha
  rw [ha] at hb
  exact hne (Option.some.inj hb)

theorem head_noDishMsg (dateShort : String) (p : Nat) :
    (noDishMsg dateShort p).data.head? = some 'N' := by
  unfold noDishMsg
  rw [strData_append, strData_append, strData_append, strData_append]
  rw [show ("Na " : String).data = ['N', 'a', ' '] from rfl]
  simp

theorem head_notPublishedMsg (dateShort : String) :
    (notPublishedMsg dateShort).data.head? = some 'M' := by
  unfold notPublishedMsg
  rw [strData_append, strData_append]
  rw [show ("Menu na " : String).data = ['M', 'e', 'n', 'u', ' ', 'n', 'a', ' '] from rfl]
  simp

/-- Counterexample to claim C5: on a page fetched and parsed
successfully whose only menu row is priced 120 Kč with target price 125,
zero dishes remain, and `get_daily_menu` returns a plain string (the
same channel as the three failure kinds, not an items value); run on a
Monday (ordinal 1), the reminder job matches `isinstance(menu_items,
str)` and returns the string with HTTP 500 — it treats the empty result
exactly as a fetch error (src/main.py lines 261 and 850–852). -/
theorem C5_counterexample :
    get_daily_menu "12.6." 125 (.page true true [["1", "P", "Guláš", "120 Kč"]])
      = .err (noDishMsg "12.6." 125)
    ∧ trigger_daily_reminder 1 10 [] [] [] [] (.err (noDishMsg "12.6." 125))
      = .menuFail (noDishMsg "12.6." 125)
    ∧ jobStatus (trigger_daily_reminder 1 10 [] [] [] []
        (.err (noDishMsg "12.6." 125))) = 500 := by
  refine ⟨by decide, by decide, by decide⟩

/-- Claim C5 (amended): when the page is fetched and parsed successfully
but zero dishes remain after the price filter, `get_daily_menu` returns
a dedicated message string — distinct in content from the three failure
messages but carried through the same string channel as them — and the
reminder job treats it like any string result: it returns it as the
HTTP body with status 500 and sends no reminders. -/
theorem C5_empty_menu_error_channel (dateShort : String) (p : Nat)
    (rows : List (List String)) (today utcHour : Nat) (holidays : List Nat)
    (cache : Cache) (orders : List (String × Order))
    (users : List (String × UserData × Settings))
    (hempty : rows.filterMap (rowDish p) = [])
    (hday : ([0, 1, 2, 3, 6].contains (weekday today)) = true)
    (hhol : holidays.contains (nextOrderDate today) = false) :
    get_daily_menu dateShort p (.page true true rows) = .err (noDishMsg dateShort p)
    ∧ trigger_daily_reminder today utcHour holidays cache orders users
        (.err (noDishMsg dateShort p)) = .menuFail (noDishMsg dateShort p)
    ∧ jobStatus (.menuFail (noDishMsg dateShort p)) = 500
    ∧ noDishMsg dateShort p ≠ menuFetchErrMsg
    ∧ noDishMsg dateShort p ≠ tableMissingMsg
    ∧ noDishMsg dateShort p ≠ notPublishedMsg dateShort := by
  refine ⟨?_, ?_, rfl, ?_, ?_, ?_⟩
  · simp [get_daily_menu, hempty]
  · unfold trigger_daily_reminder
    dsimp only []
    rw [hday, hhol]
    rfl
  · exact string_ne_of_head_ne (head_noDishMsg dateShort p)
      (show menuFetchErrMsg.data.head? = some 'D' from by decide) (by decide)
  · exact string_ne_of_head_ne (head_noDishMsg dateShort p)
      (show tableMissingMsg.data.head? = some 'C' from by decide) (by decide)
  · exact string_ne_of_head_ne (head_noDishMsg dateShort p)
      (head_notPublishedMsg dateShort) (by decide)

/-- Witness for C5 (amended), at the concrete counterexample page. -/
theorem C5_empty_menu_error_channel_witness :
    ([["1", "P", "Guláš", "120 Kč"]].filterMap (rowDish 125) = [])
    ∧ (([0, 1, 2, 3, 6].contains (weekday 1)) = true)
    ∧ (([] : List Nat).contains (nextOrderDate 1) = false)
    ∧ get_daily_menu "12.6." 125 (.page true true [["1", "P", "Guláš", "120 Kč"]])
        = .err (noDishMsg "12.6." 125)
    ∧ noDishMsg "12.6." 125 ≠ notPublishedMsg "12.6." :=
  ⟨by decide, by decide, by decide,
    (C5_empty_menu_error_channel "12.6." 125 [["1", "P", "Guláš", "120 Kč"]]
      1 10 [] [] [] [] (by decide) (by decide) (by decide)).1,
    (C5_empty_menu_error_channel "12.6." 125 [["1", "P", "Guláš", "120 Kč"]]
      1 10 [] [] [] [] (by decide) (by decide) (by decide)).2.2.2.2.2⟩

/-- Counterexample to claim C6: a reminder-job run on Monday (ordinal 1)
with the menu for date 2 already cached as [Guláš] still consumes the
freshly fetched result [Svíčková] and overwrites the cached entry with
it — the read is not served from the cache (the cache-first read on
line 849 is commented out); and the interactive order-modal path, on a
cache miss, returns the fetched menu without writing it back (line 1114
has no `save_daily_menu` call). -/
theorem C6_counterexample :
    get_saved_menu_for_date [(2, [MenuItem.mk "Guláš" none])] 2
      = some [MenuItem.mk "Guláš" none]
    ∧ trigger_daily_reminder 1 10 [] [(2, [MenuItem.mk "Guláš" none])] [] []
        (.items [MenuItem.mk "Svíčková" none])
      = .noUsers 2 [(2, [MenuItem.mk "Svíčková" none])]
    ∧ interactive_modal_menu [] 2 "x" 125
        (.page true true [["1", "P", "Svíčková", "125 Kč"]])
      = (.items [MenuItem.mk "Svíčková" none], []) := by
  refine ⟨by decide, by decide, by decide⟩

/-- Claim C6 (amended): the interactive order-modal path reads the cache
first and fetches only when the cached value is missing (or an empty
list, which Python's `or` also treats as a miss), but never writes the
fetched result back; the reminder job in this revision skips the cache
read entirely (a change the source marks TEMPORARY) — it always uses the
fetched menu and writes it through to the cache before the user loop. -/
theorem C6_cache_read_paths (cache : Cache) (d : Nat) (dateShort : String) (p : Nat)
    (outcome : FetchOutcome) (today utcHour : Nat) (holidays : List Nat)
    (orders : List (String × Order)) (users : List (String × UserData × Settings))
    (items : List MenuItem)
    (hday : ([0, 1, 2, 3, 6].contains (weekday today)) = true)
    (hhol : holidays.contains (nextOrderDate today) = false)
    (husers : users ≠ []) :
    (∀ l, get_saved_menu_for_date cache d = some l → l ≠ [] →
      interactive_modal_menu cache d dateShort p outcome = (.items l, cache))
    ∧ (get_saved_menu_for_date cache d = none →
      interactive_modal_menu cache d dateShort p outcome
        = (get_daily_menu dateShort p outcome, cache))
    ∧ (get_saved_menu_for_date cache d = some [] →
      interactive_modal_menu cache d dateShort p outcome
        = (get_daily_menu dateShort p outcome, cache))
    ∧ (∃ reminded,
        trigger_daily_reminder today utcHour holidays cache orders users (.items items)
          = .ran (nextOrderDate today) (save_daily_menu cache (nextOrderDate today) items)
              reminded
        ∧ get_saved_menu_for_date (save_daily_menu cache (nextOrderDate today) items)
            (nextOrderDate today) = some items) := by
  have hne : users.isEmpty = false := by
    cases users with
    | nil => exact absurd rfl husers
    | cons u rest => rfl
  refine ⟨?_, ?_, ?_, ?_⟩
  · intro l hl hlne
    simp [interactive_modal_menu, hl, hlne]
  · intro hl
    simp [interactive_modal_menu, hl]
  · intro hl
    simp [interactive_modal_menu, hl]
  · refine ⟨(users.filter (fun u =>
        userReminderDecision orders u.1 u.2.1 u.2.2 (nextOrderDate today)
          (pragueHour utcHour))).map (fun u => u.1), ?_, ?_⟩
    · unfold trigger_daily_reminder
      dsimp only []
      rw [hday, hhol, hne]
      rfl
    · exact fsGet_fsSet_self _ _ _

/-- Witness for C6 (amended), run concretely on Monday (ordinal 1) with
one subscriber, a warm cache for date 2 and a fetched menu. -/
theorem C6_cache_read_paths_witness :
    (([0, 1, 2, 3, 6].contains (weekday 1)) = true)
    ∧ (([] : List Nat).contains (nextOrderDate 1) = false)
    ∧ ([("U1", UserData.mk none none, Settings.mk "daily" false)] ≠
        ([] : List (String × UserData × Settings)))
    ∧ (get_saved_menu_for_date [(2, [MenuItem.mk "Guláš" none])] 2
        = some [MenuItem.mk "Guláš" none] →
      [MenuItem.mk "Guláš" none] ≠ [] →
      interactive_modal_menu [(2, [MenuItem.mk "Guláš" none])] 2 "x" 125 .networkFail
        = (.items [MenuItem.mk "Guláš" none], [(2, [MenuItem.mk "Guláš" none])]))
    ∧ (∃ reminded,
        trigger_daily_reminder 1 10 [] [(2, [MenuItem.mk "Guláš" none])] []
          [("U1", UserData.mk none none, Settings.mk "daily" false)]
          (.items [MenuItem.mk "Svíčková" none])
          = .ran (nextOrderDate 1)
              (save_daily_menu [(2, [MenuItem.mk "Guláš" none])] (nextOrderDate 1)
                [MenuItem.mk "Svíčková" none]) reminded
        ∧ get_saved_menu_for_date
            (save_daily_menu [(2, [MenuItem.mk "Guláš" none])] (nextOrderDate 1)
              [MenuItem.mk "Svíčková" none]) (nextOrderDate 1)
          = some [MenuItem.mk "Svíčková" none]) :=
  ⟨by decide, by decide, by decide,
    (C6_cache_read_paths [(2, [MenuItem.mk "Guláš" none])] 2 "x" 125 .networkFail
      1 10 [] [] [("U1", UserData.mk none none, Settings.mk "daily" false)]
      [MenuItem.mk "Svíčková" none] (by decide) (by decide) (by decide)).1
      [MenuItem.mk "Guláš" none],
    (C6_cache_read_paths [(2, [MenuItem.mk "Guláš" none])] 2 "x" 125 .networkFail
      1 10 [] [] [("U1", UserData.mk none none, Settings.mk "daily" false)]
      [MenuItem.mk "Svíčková" none] (by decide) (by decide) (by decide)).2.2.2⟩


end LunchBot
